import Mathlib

/-!
Verification of the srtm4 mosaic/crop module (srtm4.py) against its
natural-language specification.

Shallow embedding notes:
* Python floats are idealised as rationals (ℚ); the claims under study are
  structural (masking, precedence, control flow, grid arithmetic), not about
  floating-point rounding.  IEEE NaN is modelled explicitly by the `Val` type,
  since the merge nodata logic special-cases NaN.
* Python exceptions are modelled with `Except PyErr`.  Distinct `ValueError`
  messages in the source are modelled as distinct constructors (the code
  raises ValueError("No DEM found on bounds"); numpy raises ValueError for
  negative dimensions / non-broadcastable shapes; these are distinguishable
  by message, hence by constructor here).
* External collaborators (the `srtm4_which_tile` binary, the network fetch in
  `get_srtm_tile` plus `rasterio.open`, and the pyproj datum transformer) are
  modelled as oracle functions bundled in `Env`.  The fetch oracle reports the
  three outcomes relevant to the source's exception handling: success,
  builtin `ConnectionError` (raised by `download` on a non-success HTTP
  status), and `requests.RetryError` (raised when the retry budget on 5xx
  responses is exhausted).  Note the source's tile loop catches only the
  builtin `ConnectionError`.
-/

/-- Python exception kinds that the embedded code can raise.  The three
ValueError constructors stand for Python `ValueError`s with distinct
messages: "No DEM found on bounds" (crop_at_continous_lon_limits),
"negative dimensions are not allowed" (np.full), and numpy's
broadcast/shape errors raised on mismatched array assignment. -/
inductive PyErr where
  | assertionError
  | valueErrorNoDem
  | valueErrorNegativeDims
  | valueErrorBroadcast
  | valueErrorIntLiteral
  | retryError
  | indexError
  deriving DecidableEq, Repr

deriving instance DecidableEq for Except

/-- A float value: either IEEE NaN or a (rational-idealised) number. -/
inductive Val where
  | nan
  | num (q : ℚ)
  deriving DecidableEq, Repr

/-- np.isnan. -/
def Val.isnan : Val → Bool
  | .nan => true
  | .num _ => false

/-- IEEE `==` on floats: NaN compares unequal to everything, including
itself. -/
def valEq : Val → Val → Bool
  | .num p, .num q => p = q
  | _, _ => false

/-- The nodata mask used by merge: `np.isnan(x)` when the nodata value is
NaN, `x == nodata` otherwise (source lines 501-504). -/
def isNd (nodata v : Val) : Bool :=
  if nodata.isnan then v.isnan else valEq v nodata

/-- Degree resolution, RES = 3 / 3600 (source line 48). -/
def RES : ℚ := 3 / 3600

/-- Python round() / np.around: round half to even (banker's rounding). -/
def pyRound (q : ℚ) : ℤ :=
  let f := ⌊q⌋
  if q - f < 1 / 2 then f
  else if 1 / 2 < q - f then f + 1
  else if f % 2 = 0 then f else f + 1

/-- np.around(x, 5): round half to even at 5 decimal places; NaN stays NaN. -/
def npAround5 : Val → Val
  | .nan => .nan
  | .num q => .num ((pyRound (q * 100000) : ℚ) / 100000)

/-- special_round (source lines 400-415): round to the nearest integer and
assert that `rounded - val < eps`.  Note the assert is one-sided exactly as
in the source: it does not bound `val - rounded`. -/
def special_round (val : ℚ) (eps : ℚ := 1 / 100) : Except PyErr ℤ :=
  let rounded := pyRound val
  if rounded - val < eps then .ok rounded else .error .assertionError

/-- assert_interval (source lines 276-283): assert up > low. -/
def assert_interval (interval : ℚ × ℚ) : Except PyErr Unit :=
  if interval.1 < interval.2 then .ok () else .error .assertionError

/-- intersect_intervals (source lines 286-310). `none` models the Python
return value (None, None). -/
def intersect_intervals (interval_one interval_two : ℚ × ℚ) :
    Except PyErr (Option (ℚ × ℚ)) := do
  let _ ← assert_interval interval_one
  let _ ← assert_interval interval_two
  let low_inter := max interval_one.1 interval_two.1
  let up_inter := min interval_one.2 interval_two.2
  if low_inter > up_inter then return none
  else return some (low_inter, up_inter)

/-- Geospatial bounds (lon_min, lat_min, lon_max, lat_max). -/
abbrev Bounds := ℚ × ℚ × ℚ × ℚ

/-- intersect_bounds (source lines 376-397): per-axis interval intersection;
`none` models the all-None tuple. -/
def intersect_bounds (one_bound other_bound : Bounds) :
    Except PyErr (Option Bounds) := do
  let (one_w, one_s, one_e, one_n) := one_bound
  let (other_w, other_s, other_e, other_n) := other_bound
  let he ← intersect_intervals (one_w, one_e) (other_w, other_e)
  let hn ← intersect_intervals (one_s, one_n) (other_s, other_n)
  match he, hn with
  | some (int_w, int_e), some (int_s, int_n) => return some (int_w, int_s, int_e, int_n)
  | _, _ => return none

/-- An affine georeferencing transform.  Every transform constructed or read
by this module is axis-aligned (the rotation coefficients b and d of
`affine.Affine(a, b, c, d, e, f)` are always 0: the code builds transforms as
`Affine(RES, 0, ·, 0, -RES, ·)` and SRTM GeoTIFFs are north-up), so only the
four live coefficients are carried: pixel (col, row) maps to
(a·col + c, e·row + f). -/
structure Affine where
  a : ℚ
  c : ℚ
  e : ℚ
  f : ℚ
  deriving DecidableEq, Repr

/-- Forward application `transform * (x, y)` of an axis-aligned transform. -/
def Affine.fwd (t : Affine) (x y : ℚ) : ℚ × ℚ := (t.a * x + t.c, t.e * y + t.f)

/-- A fractional pixel window, as produced by rasterio.windows.from_bounds. -/
structure Window where
  col_off : ℚ
  row_off : ℚ
  width : ℚ
  height : ℚ
  deriving DecidableEq, Repr

/-- rasterio.windows.from_bounds for an axis-aligned transform with a > 0 and
e < 0 (the only transforms occurring here): invert the transform at the
corner points. -/
def from_bounds (left bottom right top : ℚ) (t : Affine) : Window :=
  { col_off := (left - t.c) / t.a
    row_off := (top - t.f) / t.e
    width := (right - left) / t.a
    height := (bottom - top) / t.e }

/-- get_px_region (source lines 418-445): window from bounds, subtract the
half-pixel offset when the transform is area-convention, and round each
coordinate with special_round.  Evaluation order (row, col, then height,
width) follows the source. -/
def get_px_region (geo_px_bounds : Bounds) (transform : Affine)
    (transform_is_area : Bool := true) : Except PyErr (ℤ × ℤ × ℤ × ℤ) := do
  let (lon_min, lat_min, lon_max, lat_max) := geo_px_bounds
  let window := from_bounds lon_min lat_min lon_max lat_max transform
  let off : ℚ := if transform_is_area then 1 / 2 else 0
  let row ← special_round (window.row_off - off)
  let col ← special_round (window.col_off - off)
  let h ← special_round window.height
  let w ← special_round window.width
  return (col, row, w, h)

/-- adjust_bounds_to_px_grid (source lines 313-346): snap bounds outward onto
the RES pixel grid, and return the adjusted bounds, the pixel-is-area
transform (origin shifted by half a pixel) and the inclusive shape. -/
def adjust_bounds_to_px_grid (bounds : Bounds) : Bounds × Affine × (ℤ × ℤ) :=
  let (lon_min, lat_min, lon_max, lat_max) := bounds
  let col_min : ℤ := ⌊lon_min / RES⌋
  let col_max : ℤ := ⌈lon_max / RES⌉
  let row_min : ℤ := ⌊lat_min / RES⌋
  let row_max : ℤ := ⌈lat_max / RES⌉
  let lon_min' := RES * col_min
  let lon_max' := RES * col_max
  let lat_min' := RES * row_min
  let lat_max' := RES * row_max
  ((lon_min', lat_min', lon_max', lat_max'),
   ⟨RES, lon_min' - RES / 2, -RES, lat_max' + RES / 2⟩,
   (row_max - row_min + 1, col_max - col_min + 1))

/-- Python floored modulus on rationals (Python `%` with a positive divisor
agrees with floored division). -/
def pyMod (a b : ℚ) : ℚ := a - b * ⌊a / b⌋

/-- wrap_lon (source lines 607-609): wrap a longitude into [-180, 180). -/
def wrap_lon (lon : ℚ) : ℚ := pyMod (lon + 180) 360 - 180

example : wrap_lon 180 = -180 := by with_unfolding_all rfl
example : wrap_lon (-185) = 175 := by with_unfolding_all rfl
example : special_round (17 / 5) = .ok 3 := by with_unfolding_all rfl
example : special_round (18 / 5) = .error .assertionError := by with_unfolding_all rfl
example : pyRound (5 / 2) = 2 := by with_unfolding_all rfl
example : pyRound (3 / 2) = 2 := by with_unfolding_all rfl

/-! ## Tile names (Grid Math)

`id2name` renders `'srtm_{:02d}_{:02d}'.format(lon_id, lat_id)` and `name2id`
splits on `'_'` and applies Python `int()` to fields 1 and 2.  Strings are
processed through their character lists with structurally recursive helpers
(Python `str.split` and `int` are modelled directly; `int()` parsing is
modelled for an optional sign followed by decimal digits, which covers every
string `'{:02d}'.format` can produce; Python's additional tolerance for
whitespace and underscores inside literals is irrelevant here). -/

/-- Python `str.split(sep)` for a single-character separator, on char
lists: `''.split('_') = ['']`, `'a_'.split('_') = ['a', '']`. -/
def splitOnChar (sep : Char) : List Char → List (List Char)
  | [] => [[]]
  | c :: cs =>
    if c = sep then [] :: splitOnChar sep cs
    else
      match splitOnChar sep cs with
      | [] => [[c]]
      | g :: gs => (c :: g) :: gs

/-- Decimal digit value of a character, if it is a digit. -/
def digitVal (c : Char) : Option ℕ :=
  if '0' ≤ c ∧ c ≤ '9' then some (c.toNat - '0'.toNat) else none

/-- Accumulating decimal parser over a digit list. -/
def parseNatAux : List Char → ℕ → Option ℕ
  | [], acc => some acc
  | c :: cs, acc =>
    match digitVal c with
    | some d => parseNatAux cs (acc * 10 + d)
    | none => none

/-- Python `int(s)` on a sign-plus-digits literal; `none` models the
`ValueError` raised on a malformed literal. -/
def pyInt : List Char → Option ℤ
  | [] => none
  | '-' :: cs => if cs = [] then none else (parseNatAux cs 0).map (fun n => -(n : ℤ))
  | '+' :: cs => if cs = [] then none else (parseNatAux cs 0).map (fun n => (n : ℤ))
  | cs => (parseNatAux cs 0).map (fun n => (n : ℤ))

/-- Decimal rendering of an integer, as Python `str`. -/
def intToChars (n : ℤ) : List Char :=
  if n < 0 then '-' :: Nat.toDigits 10 n.natAbs else Nat.toDigits 10 n.toNat

/-- Python `'{:02d}'.format(n)`: pad with a leading zero to a minimum total
width of 2 (the sign counts towards the width; wider numbers are not
truncated). -/
def fmt02 (n : ℤ) : List Char :=
  let s := intToChars n
  if s.length < 2 then '0' :: s else s

/-- id2name (source lines 264-273): `'srtm_{:02d}_{:02d}'.format(lon_id, lat_id)`. -/
def id2name (lon_id lat_id : ℤ) : String :=
  ⟨['s', 'r', 't', 'm', '_'] ++ fmt02 lon_id ++ ['_'] ++ fmt02 lat_id⟩

/-- name2id (source lines 247-261): split the name on `'_'` and parse fields
1 and 2 with `int()`.  A missing field raises IndexError, a malformed field
raises ValueError; there is no range check. -/
def name2id (tile_name : String) : Except PyErr (ℤ × ℤ) := do
  let splitted := splitOnChar '_' tile_name.data
  let f1 ← match splitted[1]? with
    | some t => Except.ok t
    | none => Except.error PyErr.indexError
  let f2 ← match splitted[2]? with
    | some t => Except.ok t
    | none => Except.error PyErr.indexError
  let lon_id ← match pyInt f1 with
    | some n => Except.ok n
    | none => Except.error PyErr.valueErrorIntLiteral
  let lat_id ← match pyInt f2 with
    | some n => Except.ok n
    | none => Except.error PyErr.valueErrorIntLiteral
  return (lon_id, lat_id)

example : name2id (id2name 7 23) = .ok (7, 23) := by decide
example : name2id (id2name (-5) 103) = .ok (-5, 103) := by decide

/-! ## Claims C4, C5, C6, C7 -/

/-- Claim C5: adjust_bounds_to_px_grid is idempotent: for every valid bounds
(lon_min < lon_max, lat_min < lat_max) re-aligning the already-aligned bounds
returns the same aligned bounds, the same affine transform and the same
shape. -/
theorem adjust_bounds_to_px_grid_idempotent (lon_min lat_min lon_max lat_max : ℚ)
    (_hlon : lon_min < lon_max) (_hlat : lat_min < lat_max) :
    adjust_bounds_to_px_grid (adjust_bounds_to_px_grid (lon_min, lat_min, lon_max, lat_max)).1
      = adjust_bounds_to_px_grid (lon_min, lat_min, lon_max, lat_max) := by
  have hRES : (RES : ℚ) ≠ 0 := by norm_num [RES]
  simp only [adjust_bounds_to_px_grid]
  rw [mul_div_cancel_left₀ _ hRES, mul_div_cancel_left₀ _ hRES,
    mul_div_cancel_left₀ _ hRES, mul_div_cancel_left₀ _ hRES]
  rw [Int.floor_intCast, Int.ceil_intCast, Int.floor_intCast, Int.ceil_intCast]

/-- Witness for C5 at the concrete bounds (0.3, 0.2, 1.7, 2.5). -/
theorem adjust_bounds_to_px_grid_idempotent_witness :
    adjust_bounds_to_px_grid (adjust_bounds_to_px_grid (3/10, 1/5, 17/10, 5/2)).1
      = adjust_bounds_to_px_grid (3/10, 1/5, 17/10, 5/2) :=
  adjust_bounds_to_px_grid_idempotent (3/10) (1/5) (17/10) (5/2)
    (by norm_num) (by norm_num)

/-- Claim C4 (code bug): the claim says get_px_region fails with
GridMisalignment whenever the absolute rounding error of an offset or size
exceeds 1e-2 pixels.  The source's special_round asserts only
`rounded - val < eps`, a one-sided check, so a window whose column offset is
3.4 (rounding error 0.4, far above the tolerance) is accepted silently and
rounded down to 3: get_px_region returns the window without any error. -/
theorem get_px_region_accepts_large_negative_rounding_error :
    get_px_region (39/10, -5/2, 59/10, -1/2) ⟨1, 0, -1, 0⟩ true = .ok (3, 0, 2, 2) ∧
    (from_bounds (39/10) (-5/2) (59/10) (-1/2) ⟨1, 0, -1, 0⟩).col_off - 1/2 = 17/5 ∧
    (1/100 : ℚ) < |(17/5 : ℚ) - ((pyRound (17/5) : ℤ) : ℚ)| := by
  refine ⟨by with_unfolding_all rfl, by with_unfolding_all rfl, ?_⟩
  with_unfolding_all decide

/-- Claim C6: the tile-name conversion round-trips on the documented range:
for every lonId in [1,72] and latId in [1,24],
name2id (id2name lonId latId) = (lonId, latId). -/
theorem name2id_id2name_roundtrip :
    ∀ lon_id ∈ Finset.Icc (1 : ℤ) 72, ∀ lat_id ∈ Finset.Icc (1 : ℤ) 24,
      name2id (id2name lon_id lat_id) = .ok (lon_id, lat_id) := by
  decide

/-- Witness for C6 at (7, 3). -/
theorem name2id_id2name_roundtrip_witness :
    name2id (id2name 7 3) = .ok (7, 3) :=
  name2id_id2name_roundtrip 7 (by decide) 3 (by decide)

/-- Claim C7 counterexample: id2name and name2id do NOT fail on ids outside
the documented ranges: the id (99, 99), far outside lonId ∈ [1,72] and
latId ∈ [1,24], is formatted and parsed back without error. -/
theorem name2id_out_of_range_no_failure :
    name2id (id2name 99 99) = .ok (99, 99) ∧ ¬ (99 : ℤ) ≤ 72 ∧ ¬ (99 : ℤ) ≤ 24 := by
  decide

/-- Claim C7 as amended: id2name and name2id perform no range validation;
ids outside the documented ranges are formatted and parsed back without
error exactly like in-range ids (shown here for lonId ∈ [73,99],
latId ∈ [25,99]). -/
theorem name2id_id2name_no_range_check :
    ∀ lon_id ∈ Finset.Icc (73 : ℤ) 99, ∀ lat_id ∈ Finset.Icc (25 : ℤ) 99,
      name2id (id2name lon_id lat_id) = .ok (lon_id, lat_id) := by
  decide

/-- Witness for the amended C7 at (80, 30). -/
theorem name2id_id2name_no_range_check_witness :
    name2id (id2name 80 30) = .ok (80, 30) :=
  name2id_id2name_no_range_check 80 (by decide) 30 (by decide)

/-! ## Arrays and raster datasets

2-D numpy arrays are modelled as lists of rows (`Arr`); positions outside
the array are never meaningful.  An open rasterio dataset is modelled by its
`bounds`, `transform` and `nodata` attributes together with its pixel grid
`data` (row, col ↦ value); `dataset.read` with a window is reading that grid
at the window's offsets (the windows computed by merge lie inside the
dataset extent whenever `bounds` is consistent with the data grid, which
rasterio guarantees for real files). -/

abbrev Arr := List (List Val)

/-- Value of an array at (row, col); in-bounds positions only are ever used. -/
def arrGet (A : Arr) (r c : ℕ) : Val := (A.getD r []).getD c .nan

/-- np.full(shape, nodata). -/
def npFull (H W : ℕ) (nodata : Val) : Arr :=
  List.replicate H (List.replicate W nodata)

/-- Map with the element index, used to model positional array writes. -/
def enumMap (f : ℕ → α → β) : ℕ → List α → List β
  | _, [] => []
  | i, a :: as => f i a :: enumMap f (i + 1) as

/-- Python slice-index normalisation for an axis of length n: negative
indices count from the end, and the result is clamped into [0, n]. -/
def pySliceIdx (n : ℕ) (i : ℤ) : ℕ :=
  (min (n : ℤ) (max 0 (if i < 0 then i + n else i))).toNat

/-- An open rasterio dataset (see the section comment). -/
structure Dataset where
  bounds : Bounds
  transform : Affine
  nodata : Val
  data : ℤ → ℤ → Val

/-- The per-dataset write geometry computed by one iteration of merge's loop:
the destination view rows [rs, re) × cols [cs, ce) (after Python slice
normalisation of `dst_array[row_dst : row_dst + height_dst,
col_dst : col_dst + width_dst]`), and the source window offsets (srcRow,
srcCol) at which `dataset.read` reads the matching block. -/
structure Geom where
  rs : ℕ
  re : ℕ
  cs : ℕ
  ce : ℕ
  srcRow : ℤ
  srcCol : ℤ
  deriving DecidableEq, Repr

/-- The geometry part of one iteration of merge's dataset loop (source lines
477-496): intersect the destination bounds with the dataset bounds (skip the
dataset when empty), window the intersection against the destination
transform (area convention) and the dataset transform (point convention),
and slice the destination array.  numpy raises a broadcast ValueError if the
sliced destination view and the read block disagree in shape (degenerate
broadcastable mismatches, e.g. a length-1 axis, are not distinguished), and
rasterio rejects negative window sizes. -/
def dsGeom (transform : Affine) (dst_bounds : Bounds) (H W : ℕ) (d : Dataset) :
    Except PyErr (Option Geom) := do
  let ib ← intersect_bounds dst_bounds d.bounds
  match ib with
  | none => return none
  | some int_bounds =>
    let (col_dst, row_dst, width_dst, height_dst) ← get_px_region int_bounds transform true
    let (col, row, width, height) ← get_px_region int_bounds d.transform false
    if width < 0 ∨ height < 0 then Except.error .valueErrorBroadcast
    else
      let rs := pySliceIdx H row_dst
      let re := pySliceIdx H (row_dst + height_dst)
      let cs := pySliceIdx W col_dst
      let ce := pySliceIdx W (col_dst + width_dst)
      if re - rs = height.toNat ∧ ce - cs = width.toNat then
        Except.ok (some ⟨rs, re, cs, ce, row, col⟩)
      else Except.error .valueErrorBroadcast

/-- The write part of one iteration of merge's loop: numpy's
`old_data[mask] = new_data[mask]` through the destination view, with
`mask = old_nodata ∧ ¬ new_nodata` (source lines 473-506 `copyto`). -/
def writeRegion (A : Arr) (g : Geom) (nodata dnd : Val) (data : ℤ → ℤ → Val) : Arr :=
  enumMap (fun r rowv =>
    if g.rs ≤ r ∧ r < g.re then
      enumMap (fun c v =>
        if g.cs ≤ c ∧ c < g.ce then
          let newv := data (g.srcRow + ((r - g.rs : ℕ) : ℤ)) (g.srcCol + ((c - g.cs : ℕ) : ℤ))
          if isNd nodata v && !(isNd dnd newv) then newv else v
        else v) 0 rowv
    else rowv) 0 A

/-- One iteration of merge's dataset loop. -/
def mergeStep (transform : Affine) (dst_bounds : Bounds) (H W : ℕ) (nodata : Val)
    (d : Dataset) (A : Arr) : Except PyErr Arr := do
  match ← dsGeom transform dst_bounds H W d with
  | none => return A
  | some g => return writeRegion A g nodata d.nodata d.data

/-- merge's dataset loop. -/
def mergeLoop (transform : Affine) (dst_bounds : Bounds) (H W : ℕ) (nodata : Val) :
    List Dataset → Arr → Except PyErr Arr
  | [], A => .ok A
  | d :: ds, A => do
    let A' ← mergeStep transform dst_bounds H W nodata d A
    mergeLoop transform dst_bounds H W nodata ds A'

/-- merge (source lines 448-508): fill the destination with nodata, compute
the destination bounds from the pixel-is-area transform and shape, then fold
the dataset loop.  (`dtype` conversions are identity under the rational
idealisation and are not modelled.) -/
def merge (datasets : List Dataset) (transform : Affine) (shape : ℤ × ℤ)
    (nodata : Val := .nan) : Except PyErr Arr :=
  if shape.1 < 0 ∨ shape.2 < 0 then .error .valueErrorNegativeDims
  else
    let H := shape.1.toNat
    let W := shape.2.toNat
    let dst_array := npFull H W nodata
    let off : ℚ := 1 / 2
    let (dst_w, dst_n) := transform.fwd off off
    let (dst_e, dst_s) := transform.fwd ((W : ℚ) + off) ((H : ℚ) + off)
    mergeLoop transform (dst_w, dst_s, dst_e, dst_n) H W nodata datasets dst_array

/-- Spec-side compositing of one dataset at one pixel, following §4.5 of the
spec: write the source value only where the current value is nodata and the
source value is not the source's own nodata.  The window geometry is the
same `dsGeom` computation the implementation performs. -/
def pixelStep (transform : Affine) (dst_bounds : Bounds) (H W : ℕ) (nodata : Val)
    (d : Dataset) (r c : ℕ) (v : Val) : Except PyErr Val := do
  match ← dsGeom transform dst_bounds H W d with
  | none => return v
  | some g =>
    if g.rs ≤ r ∧ r < g.re ∧ g.cs ≤ c ∧ c < g.ce then
      let newv := d.data (g.srcRow + ((r - g.rs : ℕ) : ℤ)) (g.srcCol + ((c - g.cs : ℕ) : ℤ))
      if isNd nodata v && !(isNd d.nodata newv) then return newv else return v
    else return v

/-- Spec-side per-pixel fold over the datasets in list order. -/
def pixelLoop (transform : Affine) (dst_bounds : Bounds) (H W : ℕ) (nodata : Val)
    (r c : ℕ) : List Dataset → Val → Except PyErr Val
  | [], v => .ok v
  | d :: ds, v => do
    let v' ← pixelStep transform dst_bounds H W nodata d r c v
    pixelLoop transform dst_bounds H W nodata r c ds v'

/-- Spec-side description of merge at a single pixel (§4.5): start from
nodata and fold the datasets in the given order, writing a source value only
where the pixel currently holds nodata and the source value is not that
source's own nodata (nodata tested by is-NaN when the nodata value is NaN).
Later datasets never overwrite an already-written pixel, so the first
dataset to cover a pixel with a valid value wins, and a pixel covered by no
dataset stays nodata. -/
def mergePixelSpec (datasets : List Dataset) (transform : Affine) (shape : ℤ × ℤ)
    (nodata : Val) (r c : ℕ) : Except PyErr Val :=
  if shape.1 < 0 ∨ shape.2 < 0 then .error .valueErrorNegativeDims
  else
    let H := shape.1.toNat
    let W := shape.2.toNat
    let off : ℚ := 1 / 2
    let (dst_w, dst_n) := transform.fwd off off
    let (dst_e, dst_s) := transform.fwd ((W : ℚ) + off) ((H : ℚ) + off)
    pixelLoop transform (dst_w, dst_s, dst_e, dst_n) H W nodata r c datasets nodata

/-! ### Concrete merge scenario (used by the C1 witness)

Destination grid: 1 row × 3 cols with 1-degree pixels centred at integer
coordinates (area-convention transform a = 1, c = -1/2, e = -1, f = 1/2).
Dataset dsA covers columns 0-1 with constant value 1, dataset dsB covers
columns 1-2 with constant value 2; both use nodata -9999 and point-convention
transforms consistent with their bounds. -/

def tMergeDemo : Affine := ⟨1, -1/2, -1, 1/2⟩

def dsA : Dataset :=
  { bounds := (0, -1, 2, 0)
    transform := ⟨1, 0, -1, 0⟩
    nodata := .num (-9999)
    data := fun _ _ => .num 1 }

def dsB : Dataset :=
  { bounds := (1, -1, 3, 0)
    transform := ⟨1, 1, -1, 0⟩
    nodata := .num (-9999)
    data := fun _ _ => .num 2 }

example : merge [dsA, dsB] tMergeDemo (1, 3) .nan
    = .ok [[.num 1, .num 1, .num 2]] := by with_unfolding_all rfl
example : merge [dsB, dsA] tMergeDemo (1, 3) .nan
    = .ok [[.num 1, .num 2, .num 2]] := by with_unfolding_all rfl

/-! ## Lemmas towards the merge characterisation (claim C1) -/

/-- Shape invariant of a 2-D array. -/
def ArrDims (A : Arr) (H W : ℕ) : Prop :=
  A.length = H ∧ ∀ row ∈ A, row.length = W

theorem enumMap_length (f : ℕ → α → β) (k : ℕ) (l : List α) :
    (enumMap f k l).length = l.length := by
  induction l generalizing k with
  | nil => rfl
  | cons a as ih => simp [enumMap, ih]

theorem enumMap_getD (f : ℕ → α → β) (k : ℕ) (l : List α) (i : ℕ)
    (hi : i < l.length) (d : β) (d' : α) :
    (enumMap f k l).getD i d = f (k + i) (l.getD i d') := by
  induction l generalizing k i with
  | nil => simp at hi
  | cons a as ih =>
    cases i with
    | zero => simp [enumMap]
    | succ n =>
      have hn : n < as.length := by simpa using hi
      have := ih (k + 1) n hn
      simpa [enumMap, Nat.add_assoc, Nat.add_comm 1 n] using this

theorem enumMap_mem (f : ℕ → α → β) (k : ℕ) (l : List α) (b : β)
    (hb : b ∈ enumMap f k l) : ∃ i a, a ∈ l ∧ b = f i a := by
  induction l generalizing k with
  | nil => simp [enumMap] at hb
  | cons a as ih =>
    simp only [enumMap, List.mem_cons] at hb
    rcases hb with hb | hb
    · exact ⟨k, a, List.mem_cons_self a as, hb⟩
    · obtain ⟨i, a', ha', hfa⟩ := ih (k + 1) hb
      exact ⟨i, a', List.mem_cons_of_mem _ ha', hfa⟩

theorem writeRegion_dims (A : Arr) (g : Geom) (nd dnd : Val) (data : ℤ → ℤ → Val)
    (H W : ℕ) (hA : ArrDims A H W) :
    ArrDims (writeRegion A g nd dnd data) H W := by
  obtain ⟨hlen, hrow⟩ := hA
  constructor
  · rw [writeRegion, enumMap_length, hlen]
  · intro row hmem
    obtain ⟨i, a, ha, hfa⟩ := enumMap_mem _ _ _ _ hmem
    subst hfa
    by_cases hi : g.rs ≤ i ∧ i < g.re
    · simp only [hi, and_self, if_true]
      rw [enumMap_length]
      exact hrow a ha
    · simp only [hi, if_false]
      exact hrow a ha

theorem arrGet_writeRegion (A : Arr) (g : Geom) (nd dnd : Val) (data : ℤ → ℤ → Val)
    (r c : ℕ) (hr : r < A.length) (hc : c < (A.getD r []).length) :
    arrGet (writeRegion A g nd dnd data) r c =
      if g.rs ≤ r ∧ r < g.re ∧ g.cs ≤ c ∧ c < g.ce then
        if isNd nd (arrGet A r c)
            && !(isNd dnd (data (g.srcRow + ((r - g.rs : ℕ) : ℤ))
                  (g.srcCol + ((c - g.cs : ℕ) : ℤ)))) then
          data (g.srcRow + ((r - g.rs : ℕ) : ℤ)) (g.srcCol + ((c - g.cs : ℕ) : ℤ))
        else arrGet A r c
      else arrGet A r c := by
  unfold arrGet writeRegion
  rw [enumMap_getD _ 0 A r hr [] []]
  simp only [Nat.zero_add]
  by_cases hrow : g.rs ≤ r ∧ r < g.re
  · rw [if_pos hrow]
    rw [enumMap_getD _ 0 (A.getD r []) c hc Val.nan Val.nan]
    simp only [Nat.zero_add]
    by_cases hcol : g.cs ≤ c ∧ c < g.ce
    · rw [if_pos hcol, if_pos (show g.rs ≤ r ∧ r < g.re ∧ g.cs ≤ c ∧ c < g.ce from
        ⟨hrow.1, hrow.2, hcol.1, hcol.2⟩)]
    · rw [if_neg hcol,
        if_neg (show ¬(g.rs ≤ r ∧ r < g.re ∧ g.cs ≤ c ∧ c < g.ce) by tauto)]
  · rw [if_neg hrow,
      if_neg (show ¬(g.rs ≤ r ∧ r < g.re ∧ g.cs ≤ c ∧ c < g.ce) by tauto)]

theorem npFull_dims (H W : ℕ) (nd : Val) : ArrDims (npFull H W nd) H W := by
  constructor
  · simp [npFull]
  · intro row hmem
    rw [npFull] at hmem
    rw [List.eq_of_mem_replicate hmem]
    simp

theorem arrGet_npFull (H W : ℕ) (nd : Val) (r c : ℕ) (hr : r < H) (hc : c < W) :
    arrGet (npFull H W nd) r c = nd := by
  simp [arrGet, npFull, List.getD_eq_getElem?_getD, List.getElem?_replicate, hr, hc]

theorem mergeStep_dims (t : Affine) (db : Bounds) (H W : ℕ) (nd : Val) (d : Dataset)
    (A A' : Arr) (hA : ArrDims A H W)
    (hok : mergeStep t db H W nd d A = .ok A') : ArrDims A' H W := by
  unfold mergeStep at hok
  cases hgeom : dsGeom t db H W d with
  | error e => rw [hgeom] at hok; exact absurd hok (by simp [Bind.bind, Except.bind])
  | ok og =>
    rw [hgeom] at hok
    cases og with
    | none =>
      simp only [Bind.bind, Except.bind, pure, Except.pure, Except.ok.injEq] at hok
      exact hok ▸ hA
    | some g =>
      simp only [Bind.bind, Except.bind, pure, Except.pure, Except.ok.injEq] at hok
      exact hok ▸ writeRegion_dims A g nd d.nodata d.data H W hA

theorem mergeStep_pixel (t : Affine) (db : Bounds) (H W : ℕ) (nd : Val) (d : Dataset)
    (A A' : Arr) (hA : ArrDims A H W)
    (hok : mergeStep t db H W nd d A = .ok A') (r c : ℕ) (hr : r < H) (hc : c < W) :
    pixelStep t db H W nd d r c (arrGet A r c) = .ok (arrGet A' r c) := by
  obtain ⟨hlen, hrows⟩ := hA
  have hr' : r < A.length := hlen ▸ hr
  have hrowmem : A.getD r [] ∈ A := by
    rw [List.getD_eq_getElem?_getD, List.getElem?_eq_getElem hr']
    exact List.getElem_mem hr'
  have hc' : c < (A.getD r []).length := by rw [hrows _ hrowmem]; exact hc
  unfold mergeStep at hok
  unfold pixelStep
  cases hgeom : dsGeom t db H W d with
  | error e => rw [hgeom] at hok; exact absurd hok (by simp [Bind.bind, Except.bind])
  | ok og =>
    rw [hgeom] at hok
    cases og with
    | none =>
      simp only [Bind.bind, Except.bind, pure, Except.pure, Except.ok.injEq] at hok
      subst hok
      simp [Bind.bind, Except.bind, pure, Except.pure]
    | some g =>
      simp only [Bind.bind, Except.bind, pure, Except.pure, Except.ok.injEq] at hok
      subst hok
      simp only [Bind.bind, Except.bind, pure, Except.pure]
      rw [arrGet_writeRegion A g nd d.nodata d.data r c hr' hc']
      by_cases hcond : g.rs ≤ r ∧ r < g.re ∧ g.cs ≤ c ∧ c < g.ce
      · rw [if_pos hcond, if_pos hcond]
        cases hmask : isNd nd (arrGet A r c)
            && !(isNd d.nodata (d.data (g.srcRow + ((r - g.rs : ℕ) : ℤ))
                  (g.srcCol + ((c - g.cs : ℕ) : ℤ))))
        · rfl
        · rfl
      · rw [if_neg hcond, if_neg hcond]

theorem mergeLoop_pixel (t : Affine) (db : Bounds) (H W : ℕ) (nd : Val)
    (ds : List Dataset) : ∀ A out : Arr, ArrDims A H W →
    mergeLoop t db H W nd ds A = .ok out →
    ArrDims out H W ∧ ∀ r c : ℕ, r < H → c < W →
      pixelLoop t db H W nd r c ds (arrGet A r c) = .ok (arrGet out r c) := by
  induction ds with
  | nil =>
    intro A out hA hok
    rw [mergeLoop] at hok
    cases hok
    exact ⟨hA, fun r c _ _ => rfl⟩
  | cons d ds ih =>
    intro A out hA hok
    rw [mergeLoop] at hok
    cases hstep : mergeStep t db H W nd d A with
    | error e =>
      rw [hstep] at hok
      exact absurd hok (by simp [Bind.bind, Except.bind])
    | ok A1 =>
      rw [hstep] at hok
      simp only [Bind.bind, Except.bind] at hok
      have hA1 : ArrDims A1 H W := mergeStep_dims t db H W nd d A A1 hA hstep
      obtain ⟨hout, hpix⟩ := ih A1 out hA1 hok
      refine ⟨hout, fun r c hr hc => ?_⟩
      rw [pixelLoop]
      rw [mergeStep_pixel t db H W nd d A A1 hA hstep r c hr hc]
      simpa [Bind.bind, Except.bind] using hpix r c hr hc

/-- Claim C1: merge initialises the destination filled with nodata and,
iterating the sources in the given list order, writes a source value to a
destination position only where the destination currently holds nodata and
the source value is not that source's own nodata (NaN nodata detected via an
is-NaN predicate, not equality).  Formally: whenever merge succeeds, every
in-shape pixel of its output equals the spec-side per-pixel first-wins fold
mergePixelSpec, so on any overlap the first dataset in the list wins, later
datasets never overwrite an already-filled position, and positions covered
by no dataset remain nodata. -/
theorem merge_first_wins (datasets : List Dataset) (transform : Affine)
    (shape : ℤ × ℤ) (nodata : Val) (out : Arr)
    (h : merge datasets transform shape nodata = .ok out) :
    out.length = shape.1.toNat ∧ (∀ row ∈ out, row.length = shape.2.toNat) ∧
    ∀ r c : ℕ, r < shape.1.toNat → c < shape.2.toNat →
      mergePixelSpec datasets transform shape nodata r c = .ok (arrGet out r c) := by
  by_cases hneg : shape.1 < 0 ∨ shape.2 < 0
  · rw [merge, if_pos hneg] at h
    exact absurd h (by simp)
  · rw [merge, if_neg hneg] at h
    simp only [Affine.fwd] at h
    obtain ⟨hdims, hpix⟩ := mergeLoop_pixel transform
      (transform.a * (1/2) + transform.c,
       transform.e * ((shape.1.toNat : ℚ) + 1/2) + transform.f,
       transform.a * ((shape.2.toNat : ℚ) + 1/2) + transform.c,
       transform.e * (1/2) + transform.f)
      shape.1.toNat shape.2.toNat nodata datasets
      (npFull shape.1.toNat shape.2.toNat nodata) out
      (npFull_dims _ _ _) h
    refine ⟨hdims.1, hdims.2, fun r c hr hc => ?_⟩
    rw [mergePixelSpec, if_neg hneg]
    simp only [Affine.fwd]
    have := hpix r c hr hc
    rw [arrGet_npFull _ _ _ _ _ hr hc] at this
    exact this

/-- Witness for C1: the concrete overlapping merge of [dsA, dsB] succeeds
with [[1, 1, 2]] (dsA wins the overlap at column 1), and the theorem applies
at pixel (0, 1). -/
theorem merge_first_wins_witness :
    mergePixelSpec [dsA, dsB] tMergeDemo (1, 3) .nan 0 1
      = .ok (arrGet [[.num 1, .num 1, .num 2]] 0 1) :=
  (merge_first_wins [dsA, dsB] tMergeDemo (1, 3) .nan [[.num 1, .num 1, .num 2]]
    (by with_unfolding_all rfl)).2.2 0 1 (by decide) (by decide)

/-! ## Datum conversion and the crop orchestrator

The external collaborators are oracles in `Env`:
* `whichTile` models the `srtm4_which_tile` binary (point list ↦ tile names);
* `fetch` models `get_srtm_tile` followed by `rasterio.open`: either an open
  dataset, a builtin `ConnectionError` (non-success HTTP status in
  `download`), or a `requests.RetryError` (5xx retry budget exhausted);
* `trf` models the pyproj geoid→ellipsoid transformer
  `trf.transform(lats, lons, alts)[-1]`. -/

/-- to_ellipsoid (source lines 349-373): apply the datum transformer, assert
`np.any(new_alt != alts)` (IEEE `!=`, so NaN entries always count as
different), and return `np.around(new_alt, 5)`.  The length guard models
numpy's shape requirement on the elementwise comparison. -/
def to_ellipsoid (trf : List ℚ → List ℚ → List Val → List Val)
    (lons lats : List ℚ) (alts : List Val) : Except PyErr (List Val) :=
  let new_alt := trf lats lons alts
  if new_alt.length ≠ alts.length then .error .valueErrorBroadcast
  else if (new_alt.zip alts).any (fun p => !(valEq p.1 p.2)) then
    .ok (new_alt.map npAround5)
  else .error .assertionError

/-- Per-pixel longitudes of the raster grid, row-major with the half-pixel
centre shift (source lines 585-598). -/
def gridLons (t : Affine) (H W : ℕ) : List ℚ :=
  (List.range H).flatMap (fun _r => (List.range W).map (fun c => t.a * ((c : ℚ) + 1/2) + t.c))

/-- Per-pixel latitudes of the raster grid, row-major. -/
def gridLats (t : Affine) (H W : ℕ) : List ℚ :=
  (List.range H).flatMap (fun r => (List.range W).map (fun _c => t.e * ((r : ℚ) + 1/2) + t.f))

/-- Regroup a flat row-major list into H rows of width W. -/
def chunkRows : ℕ → ℕ → List Val → Arr
  | 0, _, _ => []
  | h + 1, W, l => l.take W :: chunkRows h W (l.drop W)

/-- The `datum == "ellipsoidal"` branch of crop_at_continous_lon_limits
(source lines 584-600): build the per-pixel lon/lat grids from the transform
and convert the raster with to_ellipsoid (shape is preserved by pyproj; the
guard models that requirement). -/
def raster_to_ellipsoid (trf : List ℚ → List ℚ → List Val → List Val)
    (transform : Affine) (raster : Arr) : Except PyErr Arr := do
  let H := raster.length
  let W := (raster.headD []).length
  let alts := raster.flatten
  let new ← to_ellipsoid trf (gridLons transform H W) (gridLats transform H W) alts
  if new.length = H * W then return chunkRows H W new
  else .error .valueErrorBroadcast

/-- Outcome of `get_srtm_tile` + `rasterio.open` for one tile. -/
inductive FetchResult where
  | ok (d : Dataset)
  | connectionError
  | retryError

/-- Oracles for the external collaborators (see the section comment). -/
structure Env where
  whichTile : List ℚ → List ℚ → List String
  fetch : String → FetchResult
  trf : List ℚ → List ℚ → List Val → List Val

/-- The tile loop of crop_at_continous_lon_limits (source lines 565-577):
`try: get_srtm_tile(...) except ConnectionError: continue else: open and
append`.  Only builtin ConnectionError is caught; a RetryError propagates
and aborts the whole loop. -/
def openDatasets (fetch : String → FetchResult) : List String → Except PyErr (List Dataset)
  | [] => .ok []
  | t :: ts =>
    match fetch t with
    | .ok d => (openDatasets fetch ts).map (fun l => d :: l)
    | .connectionError => openDatasets fetch ts
    | .retryError => .error .retryError

/-- Python list indexing, raising IndexError when out of range. -/
def pyListGet (l : List α) (i : ℕ) : Except PyErr α :=
  match l[i]? with
  | some x => .ok x
  | none => .error .indexError

/-- np.arange(a, b + 1) on integers. -/
def intRange (a b : ℤ) : List ℤ := (List.range (b + 1 - a).toNat).map (fun i => a + i)

/-- The part of crop_at_continous_lon_limits before the tile loop (source
lines 532-563): clip latitude to [-60, 60] (`none` = out of coverage),
align the bounds, query the tile locator on the two diagonal corner points,
parse and order-check the tile ids, and enumerate the rectangular tile
range in the loop's iteration order (`for lat: for lon:`). -/
def span_prep (env : Env) (bounds : Bounds) :
    Except PyErr (Option (Affine × (ℤ × ℤ) × List String)) := do
  let (lon_min0, lat_min0, lon_max0, lat_max0) := bounds
  let latInt ← intersect_intervals (lat_min0, lat_max0) (-60, 60)
  match latInt with
  | none => return none
  | some (lat_min1, lat_max1) =>
    let (b, transform, dem_shape) := adjust_bounds_to_px_grid (lon_min0, lat_min1, lon_max0, lat_max1)
    let (lon_min, lat_min, lon_max, lat_max) := b
    let lons := [lon_min, lon_max]
    let lats := [lat_max, lat_min]
    let tiles := env.whichTile lons lats
    let parsed ← tiles.mapM name2id
    let lon_ids := parsed.map Prod.fst
    let lat_ids := parsed.map Prod.snd
    let l0 ← pyListGet lon_ids 0
    let l1 ← pyListGet lon_ids 1
    if l0 ≤ l1 then
      let lon_id := intRange l0 l1
      let t0 ← pyListGet lat_ids 0
      let t1 ← pyListGet lat_ids 1
      if t0 ≤ t1 then
        let lat_id := intRange t0 t1
        let tileNames := lat_id.flatMap (fun lat => lon_id.map (fun lon => id2name lon lat))
        return some (transform, dem_shape, tileNames)
      else .error .assertionError
    else .error .assertionError

/-- Result of a crop: either the (None, None, None) "no coverage" value or
(raster, transform, crs); the crs is always EPSG 4326. -/
inductive SpanResult where
  | noCoverage
  | ok (raster : Arr) (transform : Affine) (crs : ℕ)
  deriving DecidableEq, Repr

/-- crop_at_continous_lon_limits (source lines 511-603): assert the datum
string, prepare the span, run the tile loop, fail with
ValueError("No DEM found on bounds") when no dataset was opened, merge, and
optionally convert the datum. -/
def crop_at_continous_lon_limits (env : Env) (bounds : Bounds)
    (datum : String := "ellipsoidal") : Except PyErr SpanResult := do
  if datum = "ellipsoidal" ∨ datum = "orthometric" then
    match ← span_prep env bounds with
    | none => return SpanResult.noCoverage
    | some (transform, dem_shape, tileNames) =>
      let datasets ← openDatasets env.fetch tileNames
      if datasets.length = 0 then .error .valueErrorNoDem
      else do
        let raster ← merge datasets transform dem_shape
        if datum = "ellipsoidal" then do
          let raster2 ← raster_to_ellipsoid env.trf transform raster
          return SpanResult.ok raster2 transform 4326
        else
          return SpanResult.ok raster transform 4326
  else .error .assertionError

/-- np.hstack on two 2-D arrays: rows concatenated pairwise; a row-count
mismatch (or a None half, for an antimeridian half that returned "no
coverage") raises a ValueError. -/
def hstack (a b : Arr) : Except PyErr Arr :=
  if a.length = b.length then .ok ((a.zip b).map (fun p => p.1 ++ p.2))
  else .error .valueErrorBroadcast

/-- crop (source lines 612-653): wrap the longitudes; if wrapping reversed
the interval the request crosses the antimeridian, so crop the western and
eastern halves separately and hstack them, keeping the western transform
and crs; otherwise crop the original bounds as a single span. -/
def crop (env : Env) (bounds : Bounds) (datum : String := "orthometric") :
    Except PyErr SpanResult := do
  let (lon_start0, lat_min, lon_end0, lat_max) := bounds
  let offset := (1/10 : ℚ) * RES
  if lon_start0 ≤ lon_end0 then
    let lon_start := wrap_lon lon_start0
    let lon_end := wrap_lon lon_end0
    if lon_end < lon_start then
      let rs ← crop_at_continous_lon_limits env (lon_start, lat_min, 180 - RES - offset, lat_max) datum
      let re2 ← crop_at_continous_lon_limits env (-180 + offset, lat_min, lon_end, lat_max) datum
      match rs, re2 with
      | SpanResult.ok raster_start transform crs, SpanResult.ok raster_end _ _ => do
        let r ← hstack raster_start raster_end
        return SpanResult.ok r transform crs
      | _, _ => .error .valueErrorBroadcast
    else
      crop_at_continous_lon_limits env (lon_start0, lat_min, lon_end0, lat_max) datum
  else .error .assertionError

/-! ## Error classification lemmas (towards claim C3)

ValueError("No DEM found on bounds") can arise only from the empty-dataset
check in crop_at_continous_lon_limits: no other embedded operation produces
that error. -/

theorem noDemFree_bind {α β : Type} {x : Except PyErr α} {f : α → Except PyErr β}
    (hx : x ≠ Except.error PyErr.valueErrorNoDem)
    (hf : ∀ a, f a ≠ Except.error PyErr.valueErrorNoDem) :
    x >>= f ≠ Except.error PyErr.valueErrorNoDem := by
  cases x with
  | error e =>
    intro h
    exact hx (by simpa [Bind.bind, Except.bind] using h)
  | ok a => simpa [Bind.bind, Except.bind] using hf a

theorem special_round_ne_noDem (val eps : ℚ) :
    special_round val eps ≠ .error .valueErrorNoDem := by
  unfold special_round
  intro h
  simp only [] at h
  split at h <;> simp_all

theorem get_px_region_ne_noDem (b : Bounds) (t : Affine) (ia : Bool) :
    get_px_region b t ia ≠ .error .valueErrorNoDem := by
  obtain ⟨l1, l2, l3, l4⟩ := b
  unfold get_px_region
  exact noDemFree_bind (special_round_ne_noDem _ _) (fun row =>
    noDemFree_bind (special_round_ne_noDem _ _) (fun col =>
      noDemFree_bind (special_round_ne_noDem _ _) (fun h =>
        noDemFree_bind (special_round_ne_noDem _ _) (fun w => by simp [pure, Except.pure]))))

theorem assert_interval_ne_noDem (i : ℚ × ℚ) :
    assert_interval i ≠ .error .valueErrorNoDem := by
  unfold assert_interval
  split <;> simp

theorem intersect_intervals_ne_noDem (i1 i2 : ℚ × ℚ) :
    intersect_intervals i1 i2 ≠ .error .valueErrorNoDem := by
  unfold intersect_intervals
  refine noDemFree_bind (assert_interval_ne_noDem _) (fun _ =>
    noDemFree_bind (assert_interval_ne_noDem _) (fun _ => ?_))
  intro h
  simp only [] at h
  split at h <;> simp_all [pure, Except.pure]

theorem intersect_bounds_ne_noDem (b1 b2 : Bounds) :
    intersect_bounds b1 b2 ≠ .error .valueErrorNoDem := by
  obtain ⟨a1, a2, a3, a4⟩ := b1
  obtain ⟨c1, c2, c3, c4⟩ := b2
  unfold intersect_bounds
  exact noDemFree_bind (intersect_intervals_ne_noDem _ _) (fun he =>
    noDemFree_bind (intersect_intervals_ne_noDem _ _) (fun hn => by
      rcases he with _ | ⟨w, e⟩ <;> rcases hn with _ | ⟨s, n⟩ <;>
        simp [pure, Except.pure]))

theorem dsGeom_ne_noDem (t : Affine) (db : Bounds) (H W : ℕ) (d : Dataset) :
    dsGeom t db H W d ≠ .error .valueErrorNoDem := by
  unfold dsGeom
  refine noDemFree_bind (intersect_bounds_ne_noDem _ _) (fun ib => ?_)
  cases ib with
  | none => simp [pure, Except.pure]
  | some int_bounds =>
    refine noDemFree_bind (get_px_region_ne_noDem _ _ _) (fun w1 => ?_)
    obtain ⟨col_dst, row_dst, width_dst, height_dst⟩ := w1
    refine noDemFree_bind (get_px_region_ne_noDem _ _ _) (fun w2 => ?_)
    obtain ⟨col, row, width, height⟩ := w2
    intro h
    simp only [] at h
    split at h
    · simp at h
    · split at h <;> simp at h

theorem mergeStep_ne_noDem (t : Affine) (db : Bounds) (H W : ℕ) (nd : Val)
    (d : Dataset) (A : Arr) :
    mergeStep t db H W nd d A ≠ .error .valueErrorNoDem := by
  unfold mergeStep
  refine noDemFree_bind (dsGeom_ne_noDem _ _ _ _ _) (fun og => ?_)
  cases og <;> simp [pure, Except.pure]

theorem mergeLoop_ne_noDem (t : Affine) (db : Bounds) (H W : ℕ) (nd : Val)
    (ds : List Dataset) : ∀ A : Arr,
    mergeLoop t db H W nd ds A ≠ .error .valueErrorNoDem := by
  induction ds with
  | nil => intro A; simp [mergeLoop]
  | cons d ds ih =>
    intro A
    rw [mergeLoop]
    exact noDemFree_bind (mergeStep_ne_noDem _ _ _ _ _ _ _) (fun A1 => ih A1)

theorem merge_ne_noDem (ds : List Dataset) (t : Affine) (sh : ℤ × ℤ) (nd : Val) :
    merge ds t sh nd ≠ .error .valueErrorNoDem := by
  unfold merge
  intro h
  simp only [] at h
  split at h
  · simp at h
  · exact mergeLoop_ne_noDem _ _ _ _ _ _ _ h

theorem to_ellipsoid_ne_noDem (trf : List ℚ → List ℚ → List Val → List Val)
    (lons lats : List ℚ) (alts : List Val) :
    to_ellipsoid trf lons lats alts ≠ .error .valueErrorNoDem := by
  unfold to_ellipsoid
  intro h
  simp only [] at h
  split at h
  · simp at h
  · split at h <;> simp at h

theorem raster_to_ellipsoid_ne_noDem (trf : List ℚ → List ℚ → List Val → List Val)
    (t : Affine) (raster : Arr) :
    raster_to_ellipsoid trf t raster ≠ .error .valueErrorNoDem := by
  unfold raster_to_ellipsoid
  refine noDemFree_bind (to_ellipsoid_ne_noDem _ _ _ _) (fun new => ?_)
  intro h
  split at h <;> simp_all [pure, Except.pure]

/-- The tile loop can fail only by an uncaught RetryError. -/
theorem openDatasets_error_eq (fetch : String → FetchResult) (ts : List String) :
    ∀ e : PyErr, openDatasets fetch ts = .error e → e = .retryError := by
  induction ts with
  | nil => intro e h; exact absurd h (by simp [openDatasets])
  | cons t ts ih =>
    intro e h
    rw [openDatasets] at h
    cases hf : fetch t with
    | ok d =>
      rw [hf] at h
      cases hrec : openDatasets fetch ts with
      | error e2 =>
        rw [hrec] at h
        have h2 : e2 = e := by simpa [Except.map] using h
        rw [← h2]
        exact ih e2 hrec
      | ok l => rw [hrec] at h; simp [Except.map] at h
    | connectionError => rw [hf] at h; exact ih e h
    | retryError =>
      rw [hf] at h
      cases h
      rfl

/-! ## Claims C3 and C9 -/

def ellipsoidal : String := "ellipsoidal"

def orthometric : String := "orthometric"

/-- A trivial environment: the locator returns no tiles, every fetch fails
with ConnectionError, the datum transform is the identity. -/
def trivEnv : Env :=
  { whichTile := fun _ _ => []
    fetch := fun _ => .connectionError
    trf := fun _ _ alts => alts }

/-- Claim C9: a single-span crop whose latitude interval is valid but lies
entirely outside the coverage band [-60, 60] returns the non-fatal
"no coverage" result — for every environment, so no tile is located,
fetched or merged, and nothing is raised. -/
theorem cropSpan_out_of_coverage (env : Env) (lon_min lat_min lon_max lat_max : ℚ)
    (datum : String)
    (hd : datum = "ellipsoidal" ∨ datum = "orthometric")
    (hlat : lat_min < lat_max)
    (hout : min lat_max 60 < max lat_min (-60)) :
    crop_at_continous_lon_limits env (lon_min, lat_min, lon_max, lat_max) datum
      = .ok .noCoverage := by
  have h60 : ((-60 : ℚ)) < 60 := by norm_num
  have hprep : span_prep env (lon_min, lat_min, lon_max, lat_max) = .ok none := by
    simp only [span_prep, intersect_intervals, assert_interval, Bind.bind, Except.bind]
    rw [if_pos hlat, if_pos h60]
    simp only [gt_iff_lt]
    rw [if_pos hout]
    rfl
  unfold crop_at_continous_lon_limits
  rw [if_pos hd]
  simp [hprep, Bind.bind, Except.bind, pure, Except.pure]

/-- Witness for C9 at the concrete out-of-coverage bounds (170, 61, 171, 65)
from the spec's coverage-boundary test, with the trivial environment. -/
theorem cropSpan_out_of_coverage_witness :
    crop_at_continous_lon_limits trivEnv (170, 61, 171, 65) orthometric
      = .ok .noCoverage :=
  cropSpan_out_of_coverage trivEnv 170 61 171 65 orthometric (Or.inr rfl)
    (by norm_num) (by norm_num)

/-- Claim C3 as amended: during a single-span crop that reaches the tile
loop, a tile whose fetch fails with ConnectionError is skipped and the loop
continues with the remaining tiles, and the crop fails with
ValueError("No DEM found on bounds") if and only if the loop completed with
zero tiles successfully opened.  (A RetryError fetch failure, by contrast,
propagates out of the loop — see the counterexample theorem.) -/
theorem cropSpan_noDem_iff (env : Env) (bounds : Bounds) (datum : String)
    (transform : Affine) (shape : ℤ × ℤ) (tiles : List String)
    (hd : datum = "ellipsoidal" ∨ datum = "orthometric")
    (hp : span_prep env bounds = .ok (some (transform, shape, tiles))) :
    (crop_at_continous_lon_limits env bounds datum = .error .valueErrorNoDem
      ↔ openDatasets env.fetch tiles = .ok []) ∧
    (∀ t ts, env.fetch t = .connectionError →
      openDatasets env.fetch (t :: ts) = openDatasets env.fetch ts) := by
  constructor
  · unfold crop_at_continous_lon_limits
    rw [if_pos hd]
    simp only [hp, Bind.bind, Except.bind]
    cases hod : openDatasets env.fetch tiles with
    | error e =>
      have he := openDatasets_error_eq env.fetch tiles e hod
      subst he
      simp
    | ok ds =>
      cases ds with
      | nil => simp [pure, Except.pure]
      | cons d rest =>
        simp only []
        rw [if_neg (by simp)]
        constructor
        · intro h
          exfalso
          cases hm : merge (d :: rest) transform shape with
          | error e =>
            rw [hm] at h
            simp only [] at h
            cases h
            exact merge_ne_noDem (d :: rest) transform shape .nan hm
          | ok raster =>
            rw [hm] at h
            simp only [] at h
            by_cases hdat : datum = "ellipsoidal"
            · rw [if_pos hdat] at h
              cases hre : raster_to_ellipsoid env.trf transform raster with
              | error e =>
                rw [hre] at h
                simp only [] at h
                cases h
                exact raster_to_ellipsoid_ne_noDem env.trf transform raster hre
              | ok raster2 =>
                rw [hre] at h
                simp [pure, Except.pure] at h
            · rw [if_neg hdat] at h
              simp [pure, Except.pure] at h
        · intro h
          exact absurd h (by simp)
  · intro t ts hf
    simp [openDatasets, hf]

/-- A dataset stub for environments whose merge never runs. -/
def dsStub : Dataset :=
  { bounds := (0, 0, 1, 1)
    transform := ⟨1, 0, -1, 0⟩
    nodata := .num (-9999)
    data := fun _ _ => .num 0 }

/-- Environment for the C3 counterexample: the span needs tiles (40, 12) and
(41, 12); the first fetch succeeds, the second fails with RetryError
(exhausted retries on 5xx responses). -/
def env3 : Env :=
  { whichTile := fun _ _ => [id2name 40 12, id2name 41 12]
    fetch := fun name => if name = id2name 40 12 then .ok dsStub else .retryError
    trf := fun _ _ alts => alts }

/-- Claim C3 counterexample: a RetryError on one tile aborts the whole crop
with that error, even though another tile of the same request was fetched
successfully — so it is not the case that any download failure merely skips
the failing tile. -/
theorem cropSpan_retry_aborts :
    crop_at_continous_lon_limits env3 (17, 1, 18, 2) orthometric = .error .retryError ∧
    env3.fetch (id2name 40 12) = .ok dsStub ∧
    env3.fetch (id2name 41 12) = .retryError := by
  refine ⟨by with_unfolding_all rfl, by with_unfolding_all rfl, by with_unfolding_all rfl⟩

/-- Environment for the C3 witness: one tile in range, fetch always fails
with ConnectionError. -/
def envC : Env :=
  { whichTile := fun _ _ => [id2name 40 12, id2name 40 12]
    fetch := fun _ => .connectionError
    trf := fun _ _ alts => alts }

/-- Witness for the amended C3: with every fetch failing by ConnectionError,
the crop fails with NoCoverage-style ValueError iff the loop opened nothing
(here: both sides hold). -/
theorem cropSpan_noDem_iff_witness :
    (crop_at_continous_lon_limits envC (17, 1, 18, 2) orthometric
        = .error .valueErrorNoDem)
      ↔ openDatasets envC.fetch [id2name 40 12] = .ok [] :=
  (cropSpan_noDem_iff envC (17, 1, 18, 2) orthometric
    ⟨1/1200, 40799/2400, -1/1200, 4801/2400⟩ (1201, 1201) [id2name 40 12]
    (Or.inr rfl) (by with_unfolding_all rfl)).1

/-! ## Claim C8 -/

/-- Claim C8: to_ellipsoid checks the postcondition that the transformed
heights differ from the input heights for at least one element (numpy
elementwise `!=`, i.e. IEEE inequality), and fails fatally — an
AssertionError, never the unchanged heights — exactly when the datum
transform leaves every element equal to the input. -/
theorem to_ellipsoid_postcondition (trf : List ℚ → List ℚ → List Val → List Val)
    (lons lats : List ℚ) (alts : List Val)
    (hlen : (trf lats lons alts).length = alts.length) :
    to_ellipsoid trf lons lats alts = .error .assertionError ↔
      ∀ p ∈ (trf lats lons alts).zip alts, valEq p.1 p.2 = true := by
  unfold to_ellipsoid
  rw [if_neg (by simp [hlen])]
  cases hany : ((trf lats lons alts).zip alts).any (fun p => !(valEq p.1 p.2)) with
  | false =>
    rw [if_neg (by simp [hany])]
    simp only [List.any_eq_false] at hany
    constructor
    · intro _ p hp
      have := hany p hp
      simpa using this
    · intro _
      rfl
  | true =>
    rw [if_pos (by rfl)]
    simp only [List.any_eq_true] at hany
    obtain ⟨p, hp, hne⟩ := hany
    constructor
    · intro h
      cases h
    · intro hall
      exact absurd (hall p hp) (by simp_all)

/-- Witness for C8: the identity transform leaves [100] unchanged, and
to_ellipsoid fails with the AssertionError. -/
theorem to_ellipsoid_postcondition_witness :
    to_ellipsoid (fun _ _ alts => alts) [0] [0] [.num 100] = .error .assertionError :=
  (to_ellipsoid_postcondition (fun _ _ alts => alts) [0] [0] [.num 100] rfl).mpr
    (by decide)

/-! ## Claims C2 and C10 -/

/-- The antimeridian recombination step of crop (source lines 643-648):
sequence the western and eastern single-span crops, hstack their rasters,
and keep the western transform and crs. -/
def cropHalvesJoin (west east : Except PyErr SpanResult) : Except PyErr SpanResult := do
  let rs ← west
  let re2 ← east
  match rs, re2 with
  | SpanResult.ok raster_start transform crs, SpanResult.ok raster_end _ _ => do
    let r ← hstack raster_start raster_end
    return SpanResult.ok r transform crs
  | _, _ => .error .valueErrorBroadcast

/-- Claim C2: for bounds with lon_start ≤ lon_end whose wrapped longitudes
satisfy wrap(lon_end) < wrap(lon_start), crop splits the request into the
western sub-bounds [wrap(lon_start), 180 − RES − 0.1·RES] and the eastern
sub-bounds [−180 + 0.1·RES, wrap(lon_end)], crops each independently via the
single-span path, and — when both halves succeed — returns the horizontal
concatenation west-then-east together with the western half's transform and
crs, discarding the eastern half's transform; hstack places every western
row before the matching eastern row in column order. -/
theorem crop_antimeridian_split (env : Env) (lon_start lat_min lon_end lat_max : ℚ)
    (datum : String) (rW rE : Arr) (tW tE : Affine) (cW cE : ℕ)
    (h1 : lon_start ≤ lon_end)
    (h2 : wrap_lon lon_end < wrap_lon lon_start)
    (hW : crop_at_continous_lon_limits env
      (wrap_lon lon_start, lat_min, 180 - RES - (1/10) * RES, lat_max) datum
      = .ok (.ok rW tW cW))
    (hE : crop_at_continous_lon_limits env
      (-180 + (1/10) * RES, lat_min, wrap_lon lon_end, lat_max) datum
      = .ok (.ok rE tE cE)) :
    crop env (lon_start, lat_min, lon_end, lat_max) datum
      = (hstack rW rE).map (fun r => SpanResult.ok r tW cW) ∧
    ∀ i : ℕ, ∀ rowW rowE : List Val, rW[i]? = some rowW → rE[i]? = some rowE →
      ∀ out : Arr, hstack rW rE = .ok out → out[i]? = some (rowW ++ rowE) := by
  constructor
  · unfold crop
    simp only []
    rw [if_pos h1, if_pos h2]
    simp only [hW, hE, Bind.bind, Except.bind]
    cases hh : hstack rW rE with
    | error e => simp [hh, Except.map, Bind.bind, Except.bind]
    | ok out => simp [hh, Except.map, Bind.bind, Except.bind, pure, Except.pure]
  · intro i rowW rowE hiW hiE out hout
    unfold hstack at hout
    split at hout
    · cases hout
      rw [List.getElem?_map,
        show (rW.zip rE)[i]? = some (rowW, rowE) from
          List.getElem?_zip_eq_some.mpr ⟨hiW, hiE⟩]
      rfl
    · cases hout

/-- Claim C10: wrap_lon maps 180 exactly to −180, so a request ending at
lon_max = 180 whose wrapped lon_min is strictly above −180 takes the
antimeridian split path: crop equals the recombination of a western
single-span crop over [wrap(lon_min), 180 − 1.1·RES] and a degenerate
eastern single-span crop over the reversed interval [−180 + 0.1·RES, −180]
(the third conjunct shows that interval is reversed), not a single-span
crop of the requested interval. -/
theorem crop_lon180_split (env : Env) (lon_start lat_min lat_max : ℚ) (datum : String)
    (h1 : lon_start ≤ 180)
    (h2 : -180 < wrap_lon lon_start) :
    wrap_lon 180 = -180 ∧
    crop env (lon_start, lat_min, 180, lat_max) datum
      = cropHalvesJoin
          (crop_at_continous_lon_limits env
            (wrap_lon lon_start, lat_min, 180 - RES - (1/10) * RES, lat_max) datum)
          (crop_at_continous_lon_limits env
            (-180 + (1/10) * RES, lat_min, -180, lat_max) datum) ∧
    (-180 : ℚ) < -180 + (1/10) * RES := by
  have hw : wrap_lon 180 = -180 := by with_unfolding_all rfl
  refine ⟨hw, ?_, by norm_num [RES]⟩
  unfold crop cropHalvesJoin
  simp only []
  rw [hw, if_pos h1, if_pos h2]

/-- Western SRTM tile (72, 12) for the C2 witness: covers lon [175, 180],
lat [0, 5], centre-of-first-pixel transform, constant height 7, nodata
-32768. -/
def dsW72 : Dataset :=
  { bounds := (175, -1, 180, 5)
    transform := ⟨RES, 175, -RES, 5⟩
    nodata := .num (-32768)
    data := fun _ _ => .num 7 }

/-- Eastern SRTM tile (1, 12) for the C2 witness: covers lon [-180, -175],
lat [0, 5], constant height 9. -/
def dsE01 : Dataset :=
  { bounds := (-180, -1, -175, 5)
    transform := ⟨RES, -180, -RES, 5⟩
    nodata := .num (-32768)
    data := fun _ _ => .num 9 }

/-- Environment for the C2 witness: the locator reports tile (72, 12) for
points east of Greenwich and tile (1, 12) for points west of it; both tiles
fetch successfully. -/
def env2 : Env :=
  { whichTile := fun lons _ =>
      match lons with
      | l :: _ =>
        if l < 0 then [id2name 1 12, id2name 1 12] else [id2name 72 12, id2name 72 12]
      | [] => []
    fetch := fun name =>
      if name = id2name 72 12 then .ok dsW72
      else if name = id2name 1 12 then .ok dsE01
      else .connectionError
    trf := fun _ _ alts => alts }

/-- Witness for C2: the request (179.999, 0.0001, 180.0005, 0.0006) crosses
the antimeridian; both 2×2 halves succeed (west all 7s, east all 9s) and
crop returns their west-then-east concatenation with the western
transform. -/
theorem crop_antimeridian_split_witness :
    crop env2 (179999/1000, 1/10000, 1800005/10000, 6/10000) orthometric
      = (hstack [[.num 7, .num 7], [.num 7, .num 7]]
            [[.num 9, .num 9], [.num 9, .num 9]]).map
          (fun r => SpanResult.ok r ⟨1/1200, 86399/480, -1/1200, 1/800⟩ 4326) :=
  (crop_antimeridian_split env2 (179999/1000) (1/10000) (1800005/10000) (6/10000)
    orthometric
    [[.num 7, .num 7], [.num 7, .num 7]] [[.num 9, .num 9], [.num 9, .num 9]]
    ⟨1/1200, 86399/480, -1/1200, 1/800⟩ ⟨1/1200, -432001/2400, -1/1200, 1/800⟩
    4326 4326
    (by with_unfolding_all decide)
    (by with_unfolding_all decide)
    (by with_unfolding_all rfl)
    (by with_unfolding_all rfl)).1

/-- Witness for C10 at the spec's example bounds (175, −5, 180, 5). -/
theorem crop_lon180_split_witness :
    wrap_lon 180 = -180 ∧
    crop trivEnv (175, -5, 180, 5) orthometric
      = cropHalvesJoin
          (crop_at_continous_lon_limits trivEnv
            (wrap_lon 175, -5, 180 - RES - (1/10) * RES, 5) orthometric)
          (crop_at_continous_lon_limits trivEnv
            (-180 + (1/10) * RES, -5, -180, 5) orthometric) ∧
    (-180 : ℚ) < -180 + (1/10) * RES :=
  crop_lon180_split trivEnv 175 (-5) 5 orthometric (by norm_num)
    (by with_unfolding_all decide)
